import Mathlib

set_option maxHeartbeats 1000000

/-!
Shallow embedding of `_shop_getter.py`: a single-run storefront fetcher that
exchanges a session cookie for bearer tokens and retrieves a storefront JSON
document, with an ordered endpoint fallback.

Network I/O is modelled by oracles: each HTTP call's response is supplied by
the environment (`HttpResponse` values, or a `Call → HttpResponse` function
for the storefront loop).  A response carries its status code, its `Location`
header (absent headers are `none`) and the result of parsing its body as JSON
(`none` models a body on which `resp.json()` raises).  Python exceptions are
modelled as `Except` error values; the generic top-level `except Exception`
handler of `main` is modelled by rendering the error value as the single
printed line.  Network calls performed are returned as an explicit trace so
that "no further call is made" statements are expressible.
-/

namespace ShopGetter

/-- Minimal JSON value model, as produced by Python's `json` module. -/
inductive Json where
  | null
  | bool (b : Bool)
  | num (n : Int)
  | str (s : String)
  | arr (elems : List Json)
  | obj (fields : List (String × Json))
deriving Repr, Inhabited

/-- Association-list lookup, modelling Python `dict` key access. -/
def lookupField : List (String × Json) → String → Option Json
  | [], _ => none
  | (k, v) :: rest, key => if k = key then some v else lookupField rest key

/-- Dictionary `get`: `none` when the value is not a dict or the key is absent. -/
def Json.getField? : Json → String → Option Json
  | .obj fs, key => lookupField fs key
  | _, _ => none

/-- Python truthiness of a JSON value (used by `if version:`). -/
def Json.truthy : Json → Bool
  | .null => false
  | .bool b => b
  | .num n => n != 0
  | .str s => s != ""
  | .arr es => !es.isEmpty
  | .obj fs => !fs.isEmpty

/-- Rendering of a JSON value when interpolated into a Python f-string.
Container rendering is elided (no claim exercises it). -/
def Json.asPy : Json → String
  | .str s => s
  | .num n => toString n
  | .bool true => "True"
  | .bool false => "False"
  | .null => "None"
  | .arr _ => "[...]"
  | .obj _ => "\x7b...\x7d"

/-- An HTTP response as observed by this program: status code, the optional
`Location` header, and the JSON parse of the body (`none` when `resp.json()`
would raise). -/
structure HttpResponse where
  status : Nat
  location : Option String
  jsonBody : Option Json
deriving Repr, Inhabited

/-- `SHARD = "ap"` (source line 13). -/
def SHARD : String := "ap"

def AUTH_COOKIES_URL : String := "https://auth.riotgames.com/api/v1/authorization"

def AUTH_REAUTH_URL : String := "https://auth.riotgames.com/authorize"

def ENTITLEMENTS_URL : String := "https://entitlements.auth.riotgames.com/api/token/v1"

def USERINFO_URL : String := "https://auth.riotgames.com/userinfo"

def VERSION_URL : String := "https://valorant-api.com/v1/version"

/-- The fixed OAuth-style body `AUTH_BODY` of the source. -/
def AUTH_BODY : Json := .obj
  [("client_id", .str "play-valorant-web-prod"),
   ("nonce", .str "1"),
   ("redirect_uri", .str "https://playvalorant.com/opt_in"),
   ("response_type", .str "token id_token"),
   ("scope", .str "account openid")]

/-- The fixed opaque platform-descriptor blob `CLIENT_PLATFORM`. -/
def CLIENT_PLATFORM : String := "ew0KCSJwbGF0Zm9ybVR5cGUiOiAiUEMiLA0KCSJwbGF0Zm9ybU9TIjogIldpbmRvd3MiLA0KCSJwbGF0Zm9ybU9TVmVyc2lvbiI6ICIxMC4wLjE5MDQyLjEuMjU2LjY0Yml0IiwNCgkicGxhdGZvcm1DaGlwc2V0IjogIlVua25vd24iDQp9"

/-- Python `str.strip()`: remove whitespace from both ends. -/
def pyStrip (s : String) : String :=
  String.mk (((s.toList.dropWhile Char.isWhitespace).reverse.dropWhile
    Char.isWhitespace).reverse)

/-- `CLIENT_VERSION_OVERRIDE = os.getenv("CLIENT_VERSION", "").strip() or None`
(source line 11): the environment value, if set, is stripped; an empty result
is `None`. -/
def clientVersionOverride (env : Option String) : Option String :=
  match env with
  | none => none
  | some s => if pyStrip s = "" then none else some (pyStrip s)

/-- The exceptions the run can abort with, as a datatype (Python raises
`Exception` values; `main` only ever renders them as text). -/
inductive RunError where
  | authFailed (status : Nat)
  | tokenNotFound
  | httpError (status : Nat)
  | keyError (key : String)
  | jsonDecode
  | storefrontFailed
deriving Repr, DecidableEq

/-- The text of each exception, as `str(e)` would render it. For `httpError`,
`keyError` and `jsonDecode` (exceptions raised inside the `requests` / `json`
libraries) the text is a representative library message; the claims only
compare the messages raised explicitly by the source. -/
def RunError.message : RunError → String
  | .authFailed s => "認証失敗 (status: " ++ toString s ++ ")"
  | .tokenNotFound => "アクセストークン取得失敗"
  | .httpError s => toString s ++ " Error"
  | .keyError k => "KeyError " ++ k
  | .jsonDecode => "Expecting value: line 1 column 1 (char 0)"
  | .storefrontFailed => "ストアフロント取得失敗"

/-- The literal regex pattern text `access_token=`, as characters. -/
def ACCESS_TOKEN_PAT : List Char := "access_token=".toList

/-- Longest initial run of non-`&` characters: the greedy match of `[^&]+`. -/
def takeNonAmp : List Char → List Char
  | [] => []
  | c :: cs => if c = '&' then [] else c :: takeNonAmp cs

/-- Remainder after `takeNonAmp`. -/
def dropNonAmp : List Char → List Char
  | [] => []
  | c :: cs => if c = '&' then c :: cs else dropNonAmp cs

/-- `re.search(r"access_token=([^&]+)", ·)`: scan start positions left to
right; at the first position where the literal `access_token=` is followed by
at least one non-`&` character, capture the maximal run of non-`&` characters;
otherwise no match. -/
def searchToken : List Char → Option (List Char)
  | [] => none
  | c :: cs =>
    if (c :: cs).take 13 = ACCESS_TOKEN_PAT then
      match (c :: cs).drop 13 with
      | [] => searchToken cs
      | d :: ds => if d = '&' then searchToken cs else some (takeNonAmp (d :: ds))
    else searchToken cs

/-- `match.group(1)` of the search, on strings. -/
def findAccessToken (s : String) : Option String :=
  (searchToken s.toList).map String.mk

/-- `authenticate` (source lines 41-50), given the reauthorization response
(the first POST's response is not consumed; the cookie injection is transport
state).  Non-{301,303} status is a hard failure carrying the status; otherwise
the token is extracted from the `Location` header, defaulting to `""` when the
header is absent (`resp.headers.get("Location", "")`). -/
def authenticate (reauthResp : HttpResponse) : Except RunError String :=
  if reauthResp.status ≠ 301 ∧ reauthResp.status ≠ 303 then
    .error (.authFailed reauthResp.status)
  else
    match findAccessToken (reauthResp.location.getD "") with
    | some tok => .ok tok
    | none => .error .tokenNotFound

/-- `resp.raise_for_status()` raises exactly for 400 ≤ status < 600. -/
def raiseForStatus (status : Nat) : Bool :=
  400 ≤ status && status < 600

/-- `get_entitlements_token` (source lines 53-60): raise for status, then
index the JSON body at `"entitlements_token"`. -/
def get_entitlements_token (resp : HttpResponse) : Except RunError Json :=
  if raiseForStatus resp.status then .error (.httpError resp.status)
  else
    match resp.jsonBody with
    | none => .error .jsonDecode
    | some j =>
      match j.getField? "entitlements_token" with
      | some v => .ok v
      | none => .error (.keyError "entitlements_token")

/-- `get_puuid` (source lines 63-66): raise for status, then index the JSON
body at `"sub"`. -/
def get_puuid (resp : HttpResponse) : Except RunError Json :=
  if raiseForStatus resp.status then .error (.httpError resp.status)
  else
    match resp.jsonBody with
    | none => .error .jsonDecode
    | some j =>
      match j.getField? "sub" with
      | some v => .ok v
      | none => .error (.keyError "sub")

/-- Outcome of the best-effort live version lookup: either the request itself
raised (timeout, network error, proxy error — `exc`), or a response arrived
with a status and a JSON body (`none` body: `resp.json()` raised). -/
inductive VersionLookup where
  | exc
  | resp (status : Nat) (body : Option Json)
deriving Repr

/-- The hardcoded last-known-good version string (source line 80). -/
def FALLBACK_VERSION : String := "release-12.02-shipping-9-4226954"

/-- `get_client_version` (source lines 69-80), returning the version string
and the number of network calls performed (0 when the override short-circuits,
1 otherwise).  Every failure of the live lookup is swallowed: the function is
total and never errors. -/
def get_client_version (override : Option String) (lookup : VersionLookup) :
    String × Nat :=
  match override with
  | some v => (v, 0)
  | none =>
    match lookup with
    | .exc => (FALLBACK_VERSION, 1)
    | .resp status body =>
      if status = 200 then
        match body with
        | none => (FALLBACK_VERSION, 1)
        | some j =>
          let version := (((j.getField? "data").getD (.obj [])).getField? "riotClientVersion").getD .null
          if version.truthy then (version.asPy, 1) else (FALLBACK_VERSION, 1)
      else (FALLBACK_VERSION, 1)

/-- One outbound HTTP request: method, URL, per-request headers, JSON body. -/
structure Call where
  method : String
  url : String
  headers : List (String × String)
  body : Option Json
deriving Repr

/-- The four storefront headers (source lines 84-89). -/
def storefrontHeaders (access_token entitlements_token client_version : String) :
    List (String × String) :=
  [("Authorization", "Bearer " ++ access_token),
   ("X-Riot-Entitlements-JWT", entitlements_token),
   ("X-Riot-ClientPlatform", CLIENT_PLATFORM),
   ("X-Riot-ClientVersion", client_version)]

/-- The fixed ordered endpoint list (source lines 90-94): GET v2, POST v3,
GET v1, all on the `ap` shard host. -/
def storefrontAttempts (puuid : String) : List (String × String) :=
  [("GET", "https://pd." ++ SHARD ++ ".a.pvp.net/store/v2/storefront/" ++ puuid),
   ("POST", "https://pd." ++ SHARD ++ ".a.pvp.net/store/v3/storefront/" ++ puuid),
   ("GET", "https://pd." ++ SHARD ++ ".a.pvp.net/store/v1/storefront/" ++ puuid)]

/-- Build the request of one attempt: `json={} if method == "POST" else None`. -/
def mkCall (headers : List (String × String)) : String × String → Call
  | (m, u) => ⟨m, u, headers, if m = "POST" then some (.obj []) else none⟩

/-- The fallback loop of `get_storefront` (source lines 90-98): issue each
attempt in order; the first 200 returns its parsed body (a body `resp.json()`
raises on propagates as a JSON-decode error); if no attempt returns 200,
raise the storefront failure.  Also returns the trace of calls issued. -/
def storeLoop (net : Call → HttpResponse) (headers : List (String × String)) :
    List (String × String) → Except RunError Json × List Call
  | [] => (.error .storefrontFailed, [])
  | mu :: rest =>
    let c := mkCall headers mu
    let resp := net c
    if resp.status = 200 then
      match resp.jsonBody with
      | some j => (.ok j, [c])
      | none => (.error .jsonDecode, [c])
    else
      let r := storeLoop net headers rest
      (r.1, c :: r.2)

/-- `get_storefront` (source lines 83-98). -/
def get_storefront (net : Call → HttpResponse)
    (access_token entitlements_token puuid client_version : String) :
    Except RunError Json × List Call :=
  storeLoop net (storefrontHeaders access_token entitlements_token client_version)
    (storefrontAttempts puuid)

/-- The first storefront attempt's request (GET v2). -/
def sfCall1 (a e p v : String) : Call :=
  mkCall (storefrontHeaders a e v)
    ("GET", "https://pd." ++ SHARD ++ ".a.pvp.net/store/v2/storefront/" ++ p)

/-- The second storefront attempt's request (POST v3, empty JSON body). -/
def sfCall2 (a e p v : String) : Call :=
  mkCall (storefrontHeaders a e v)
    ("POST", "https://pd." ++ SHARD ++ ".a.pvp.net/store/v3/storefront/" ++ p)

/-- The third storefront attempt's request (GET v1). -/
def sfCall3 (a e p v : String) : Call :=
  mkCall (storefrontHeaders a e v)
    ("GET", "https://pd." ++ SHARD ++ ".a.pvp.net/store/v1/storefront/" ++ p)

/-- The run's environment: the configuration values and the oracle giving
each network call's response. -/
structure Env where
  ssid : Option String
  clientVersionEnv : Option String
  reauthResp : HttpResponse
  entitlementsResp : HttpResponse
  userinfoResp : HttpResponse
  versionLookup : VersionLookup
  storeNet : Call → HttpResponse

/-- `if not SSID` (source line 102): unset or empty. -/
def ssidMissing (ssid : Option String) : Bool :=
  match ssid with
  | none => true
  | some s => s = ""

/-- The configuration-error line (source line 103). -/
def configErrorLine : String := "エラー: .env に SSID が設定されていません。"

/-- The generic top-level rendering of a caught exception (source line 117). -/
def topLine (e : RunError) : String := "エラー: " ++ e.message

/-- The two calls `authenticate` issues (the init POST and the reauth GET). -/
def authTraceCalls : List Call :=
  [⟨"POST", AUTH_COOKIES_URL, [("Content-Type", "application/json")], some AUTH_BODY⟩,
   ⟨"GET", AUTH_REAUTH_URL, [], none⟩]

/-- The entitlement-issuance request (source lines 54-58). -/
def entCallOf (access_token : String) : Call :=
  ⟨"POST", ENTITLEMENTS_URL,
   [("Authorization", "Bearer " ++ access_token), ("Content-Type", "application/json")],
   some (.obj [])⟩

/-- The user-info request (source line 64). -/
def userCallOf (access_token : String) : Call :=
  ⟨"GET", USERINFO_URL, [("Authorization", "Bearer " ++ access_token)], none⟩

/-- The calls the Client Version Resolver issues: none when the override
short-circuits, the single lookup GET otherwise. -/
def versionCallsOf (override : Option String) (lookup : VersionLookup) : List Call :=
  if (get_client_version override lookup).2 = 0 then [] else [⟨"GET", VERSION_URL, [], none⟩]

/-- What a run prints: the pretty-printed storefront document, or a single
error line. -/
inductive Output where
  | document (doc : Json)
  | errorLine (line : String)
deriving Repr

/-- `main` (source lines 101-117): the configuration check, then the strictly
sequential pipeline, each exception caught at the top level and rendered as a
single line.  Returns what is printed and the trace of network calls made. -/
def main (env : Env) : Output × List Call :=
  if ssidMissing env.ssid then (.errorLine configErrorLine, [])
  else
    match authenticate env.reauthResp with
    | .error e => (.errorLine (topLine e), authTraceCalls)
    | .ok access_token =>
      match get_entitlements_token env.entitlementsResp with
      | .error e => (.errorLine (topLine e), authTraceCalls ++ [entCallOf access_token])
      | .ok entTok =>
        match get_puuid env.userinfoResp with
        | .error e =>
            (.errorLine (topLine e),
             authTraceCalls ++ [entCallOf access_token, userCallOf access_token])
        | .ok sub =>
          let cv := get_client_version (clientVersionOverride env.clientVersionEnv) env.versionLookup
          let sf := get_storefront env.storeNet access_token entTok.asPy sub.asPy cv.1
          let calls := authTraceCalls ++ [entCallOf access_token, userCallOf access_token]
            ++ versionCallsOf (clientVersionOverride env.clientVersionEnv) env.versionLookup
            ++ sf.2
          match sf.1 with
          | .error e => (.errorLine (topLine e), calls)
          | .ok j => (.document j, calls)

/-- Specification-level description of a successful extraction: `t` is a
non-empty `&`-free substring of `loc` directly following `access_token=` and
delimited by the next `&` or the end of the string. -/
def tokenDecomp (loc t : String) : Prop :=
  ∃ pre post, loc.toList = pre ++ ACCESS_TOKEN_PAT ++ t.toList ++ post ∧
    t.toList ≠ [] ∧ '&' ∉ t.toList ∧ (post = [] ∨ ∃ r, post = '&' :: r)

theorem takeNonAmp_append_dropNonAmp (l : List Char) :
    takeNonAmp l ++ dropNonAmp l = l := by
  induction l with
  | nil => rfl
  | cons c cs ih =>
    simp only [takeNonAmp, dropNonAmp]
    by_cases h : c = '&' <;> simp [h, ih]

theorem amp_not_mem_takeNonAmp (l : List Char) : '&' ∉ takeNonAmp l := by
  induction l with
  | nil => simp [takeNonAmp]
  | cons c cs ih =>
    simp only [takeNonAmp]
    by_cases h : c = '&'
    · simp [h]
    · simp only [h, if_false, List.mem_cons, not_or]
      exact ⟨fun hc => h hc.symm, ih⟩

theorem dropNonAmp_shape (l : List Char) :
    dropNonAmp l = [] ∨ ∃ r, dropNonAmp l = '&' :: r := by
  induction l with
  | nil => left; rfl
  | cons c cs ih =>
    by_cases h : c = '&'
    · right; exact ⟨cs, by simp [dropNonAmp, h]⟩
    · simpa [dropNonAmp, h] using ih

theorem searchToken_sound (l g : List Char) (hg : searchToken l = some g) :
    ∃ pre post, l = pre ++ ACCESS_TOKEN_PAT ++ g ++ post ∧ g ≠ [] ∧ '&' ∉ g ∧
      (post = [] ∨ ∃ r, post = '&' :: r) := by
  induction l with
  | nil => simp [searchToken] at hg
  | cons c cs ih =>
    rw [searchToken] at hg
    by_cases htake : (c :: cs).take 13 = ACCESS_TOKEN_PAT
    · rw [if_pos htake] at hg
      rcases hdrop : (c :: cs).drop 13 with _ | ⟨d, ds⟩
      · rw [hdrop] at hg
        obtain ⟨pre, post, heq, hne, hamp, hpost⟩ := ih hg
        exact ⟨c :: pre, post, by simp [heq], hne, hamp, hpost⟩
      · rw [hdrop] at hg
        have hg' : (if d = '&' then searchToken cs else some (takeNonAmp (d :: ds)))
            = some g := hg
        by_cases hd : d = '&'
        · rw [if_pos hd] at hg'
          obtain ⟨pre, post, heq, hne, hamp, hpost⟩ := ih hg'
          exact ⟨c :: pre, post, by simp [heq], hne, hamp, hpost⟩
        · rw [if_neg hd] at hg'
          obtain rfl : takeNonAmp (d :: ds) = g := by injection hg'
          refine ⟨[], dropNonAmp (d :: ds), ?_, ?_, amp_not_mem_takeNonAmp _,
            dropNonAmp_shape _⟩
          · have h1 : ACCESS_TOKEN_PAT ++ (d :: ds) = c :: cs := by
              rw [← htake, ← hdrop]; exact List.take_append_drop 13 (c :: cs)
            have h2 : takeNonAmp (d :: ds) ++ dropNonAmp (d :: ds) = d :: ds :=
              takeNonAmp_append_dropNonAmp _
            rw [List.nil_append, List.append_assoc, h2]
            exact h1.symm
          · simp [takeNonAmp, hd]
    · rw [if_neg htake] at hg
      obtain ⟨pre, post, heq, hne, hamp, hpost⟩ := ih hg
      exact ⟨c :: pre, post, by simp [heq], hne, hamp, hpost⟩

theorem findAccessToken_sound (s t : String) (h : findAccessToken s = some t) :
    tokenDecomp s t := by
  rw [findAccessToken, Option.map_eq_some'] at h
  obtain ⟨g, hg, rfl⟩ := h
  obtain ⟨pre, post, heq, hne, hamp, hpost⟩ := searchToken_sound s.toList g hg
  exact ⟨pre, post, heq, hne, hamp, hpost⟩

/-- C1: for a reauthorization response with redirect status 301 or 303, any
access token the authenticator returns is exactly a non-empty substring of
the `Location` header directly following `access_token=` and delimited by the
next `&` or the end of the string; when no such pattern exists in the header
the authenticator fails with the token-extraction error; and on the spec's
example `Location` the extracted token is exactly `ABC123`. -/
theorem C1_token_extraction :
    (∀ resp : HttpResponse, resp.status = 301 ∨ resp.status = 303 →
      (∀ t, authenticate resp = .ok t → tokenDecomp (resp.location.getD "") t) ∧
      ((¬ ∃ t, tokenDecomp (resp.location.getD "") t) →
        authenticate resp = .error .tokenNotFound)) ∧
    authenticate
      ⟨303, some "https://playvalorant.com/opt_in/callback#access_token=ABC123&id_token=XYZ&state=abc", none⟩
      = .ok "ABC123" := by
  constructor
  · intro resp hst
    have hcond : ¬ (resp.status ≠ 301 ∧ resp.status ≠ 303) := by
      rcases hst with h | h <;> simp [h]
    constructor
    · intro t ht
      rw [authenticate, if_neg hcond] at ht
      rcases hf : findAccessToken (resp.location.getD "") with _ | t'
      · rw [hf] at ht; exact absurd ht (by simp)
      · rw [hf] at ht
        obtain rfl : t' = t := by injection ht
        exact findAccessToken_sound _ _ hf
    · intro hno
      rw [authenticate, if_neg hcond]
      rcases hf : findAccessToken (resp.location.getD "") with _ | t'
      · rfl
      · exact absurd ⟨t', findAccessToken_sound _ _ hf⟩ hno
  · rfl

/-- Closed instance of the quantified part of `C1_token_extraction`. -/
theorem C1_token_extraction_witness :
    tokenDecomp "cb#access_token=T1&x=1" "T1" :=
  (C1_token_extraction.1 ⟨303, some "cb#access_token=T1&x=1", none⟩ (Or.inr rfl)).1
    "T1" rfl

/-- C2: a reauthorization response whose status is outside {301, 303} is a
hard authentication failure carrying that exact status code in its message,
and no access token is produced; statuses 301 and 303 proceed to token
extraction from the `Location` header. -/
theorem C2_reauth_status_gate (resp : HttpResponse) :
    (resp.status ≠ 301 ∧ resp.status ≠ 303 →
      authenticate resp = .error (.authFailed resp.status) ∧
      (RunError.authFailed resp.status).message
        = "認証失敗 (status: " ++ toString resp.status ++ ")" ∧
      ∀ t, authenticate resp ≠ .ok t) ∧
    ((resp.status = 301 ∨ resp.status = 303) →
      authenticate resp =
        match findAccessToken (resp.location.getD "") with
        | some tok => .ok tok
        | none => .error .tokenNotFound) := by
  constructor
  · intro h
    refine ⟨by rw [authenticate, if_pos h], rfl, ?_⟩
    intro t
    rw [authenticate, if_pos h]
    simp
  · intro hst
    have hcond : ¬ (resp.status ≠ 301 ∧ resp.status ≠ 303) := by
      rcases hst with h | h <;> simp [h]
    rw [authenticate, if_neg hcond]

/-- Closed instance of `C2_reauth_status_gate` at status 404. -/
theorem C2_reauth_status_gate_witness :
    authenticate ⟨404, some "cb#access_token=T1", none⟩
      = .error (.authFailed 404) :=
  ((C2_reauth_status_gate ⟨404, some "cb#access_token=T1", none⟩).1
    (by decide)).1

/-- C9: a reauthorization response with redirect status 301 or 303 but no
`Location` header at all does not crash the authenticator: the header
defaults to the empty string and the failure is the same token-extraction
error as when the pattern is absent. -/
theorem C9_missing_location_header (resp : HttpResponse)
    (hst : resp.status = 301 ∨ resp.status = 303) (hloc : resp.location = none) :
    authenticate resp = .error .tokenNotFound := by
  have hcond : ¬ (resp.status ≠ 301 ∧ resp.status ≠ 303) := by
    rcases hst with h | h <;> simp [h]
  rw [authenticate, if_neg hcond, hloc]
  rfl

/-- Closed instance of `C9_missing_location_header` at status 303. -/
theorem C9_missing_location_header_witness :
    authenticate ⟨303, none, none⟩ = .error .tokenNotFound :=
  C9_missing_location_header ⟨303, none, none⟩ (Or.inr rfl) rfl

/-- C5: a configured override that is non-empty after trimming is stored
trimmed and returned verbatim by the resolver, with zero network calls,
whatever the live lookup would have produced. -/
theorem C5_override_short_circuits (envStr : String) (lk : VersionLookup)
    (h : pyStrip envStr ≠ "") :
    clientVersionOverride (some envStr) = some (pyStrip envStr) ∧
    get_client_version (clientVersionOverride (some envStr)) lk
      = (pyStrip envStr, 0) := by
  have hov : clientVersionOverride (some envStr) = some (pyStrip envStr) := by
    simp [clientVersionOverride, h]
  refine ⟨hov, ?_⟩
  rw [hov]
  rfl

/-- Closed instance of `C5_override_short_circuits` on the spec's example. -/
theorem C5_override_short_circuits_witness :
    get_client_version (clientVersionOverride (some "custom-version"))
      VersionLookup.exc = (pyStrip "custom-version", 0) :=
  (C5_override_short_circuits "custom-version" VersionLookup.exc (by decide)).2

/-- The one outcome of the live lookup the code accepts: a 200 response whose
parsed body carries a truthy `data.riotClientVersion` field. -/
def goodLookup : VersionLookup → Prop := fun lk =>
  ∃ j, lk = .resp 200 (some j) ∧
    ((((j.getField? "data").getD (.obj [])).getField? "riotClientVersion").getD
      .null).truthy = true

/-- C6: with no override configured, every lookup outcome other than a 200
response with a non-empty version field at `data.riotClientVersion` (request
exception, non-200 status, unparseable body, missing or falsy field) makes
the resolver return the hardcoded fallback; the resolver is total, so this
path never raises. -/
theorem C6_silent_fallback (lk : VersionLookup) (h : ¬ goodLookup lk) :
    get_client_version none lk = (FALLBACK_VERSION, 1) := by
  cases lk with
  | exc => rfl
  | resp status body =>
    by_cases hs : status = 200
    · subst hs
      cases body with
      | none => rfl
      | some j =>
        by_cases hv : ((((j.getField? "data").getD (.obj [])).getField?
            "riotClientVersion").getD .null).truthy = true
        · exact absurd ⟨j, rfl, hv⟩ h
        · simp [get_client_version, hv]
    · simp [get_client_version, hs]

/-- Closed instance of `C6_silent_fallback`: unreachable endpoint. -/
theorem C6_silent_fallback_witness :
    get_client_version none VersionLookup.exc = (FALLBACK_VERSION, 1) :=
  C6_silent_fallback VersionLookup.exc (by rintro ⟨j, hj, -⟩; cases hj)

theorem storeLoop_cons_ok (net : Call → HttpResponse)
    (hdrs : List (String × String)) (mu : String × String)
    (rest : List (String × String)) (j : Json)
    (h200 : (net (mkCall hdrs mu)).status = 200)
    (hj : (net (mkCall hdrs mu)).jsonBody = some j) :
    storeLoop net hdrs (mu :: rest) = (.ok j, [mkCall hdrs mu]) := by
  rw [storeLoop]
  simp [h200, hj]

theorem storeLoop_cons_badjson (net : Call → HttpResponse)
    (hdrs : List (String × String)) (mu : String × String)
    (rest : List (String × String))
    (h200 : (net (mkCall hdrs mu)).status = 200)
    (hj : (net (mkCall hdrs mu)).jsonBody = none) :
    storeLoop net hdrs (mu :: rest) = (.error .jsonDecode, [mkCall hdrs mu]) := by
  rw [storeLoop]
  simp [h200, hj]

theorem storeLoop_cons_fail (net : Call → HttpResponse)
    (hdrs : List (String × String)) (mu : String × String)
    (rest : List (String × String))
    (h : (net (mkCall hdrs mu)).status ≠ 200) :
    storeLoop net hdrs (mu :: rest)
      = ((storeLoop net hdrs rest).1, mkCall hdrs mu :: (storeLoop net hdrs rest).2) := by
  rw [storeLoop]
  simp [h]

theorem get_storefront_as_storeLoop (net : Call → HttpResponse)
    (a e p v : String) :
    get_storefront net a e p v
      = storeLoop net (storefrontHeaders a e v)
          [("GET", "https://pd." ++ SHARD ++ ".a.pvp.net/store/v2/storefront/" ++ p),
           ("POST", "https://pd." ++ SHARD ++ ".a.pvp.net/store/v3/storefront/" ++ p),
           ("GET", "https://pd." ++ SHARD ++ ".a.pvp.net/store/v1/storefront/" ++ p)] := rfl

/-- C3: the storefront fetcher issues, in order, GET v2, POST v3 (with empty
JSON body), GET v1 on the account's resource path, and the first attempt
returning 200 short-circuits: its JSON body is the result and the trace shows
no later attempt. -/
theorem C3_ordered_fallback (net : Call → HttpResponse) (a e p v : String) :
    ((net (sfCall1 a e p v)).status = 200 →
      ∀ j, (net (sfCall1 a e p v)).jsonBody = some j →
        get_storefront net a e p v = (.ok j, [sfCall1 a e p v])) ∧
    ((net (sfCall1 a e p v)).status ≠ 200 →
      (net (sfCall2 a e p v)).status = 200 →
      ∀ j, (net (sfCall2 a e p v)).jsonBody = some j →
        get_storefront net a e p v = (.ok j, [sfCall1 a e p v, sfCall2 a e p v])) ∧
    ((net (sfCall1 a e p v)).status ≠ 200 →
      (net (sfCall2 a e p v)).status ≠ 200 →
      (net (sfCall3 a e p v)).status = 200 →
      ∀ j, (net (sfCall3 a e p v)).jsonBody = some j →
        get_storefront net a e p v
          = (.ok j, [sfCall1 a e p v, sfCall2 a e p v, sfCall3 a e p v])) ∧
    (sfCall1 a e p v).method = "GET" ∧
    (sfCall1 a e p v).url = "https://pd.ap.a.pvp.net/store/v2/storefront/" ++ p ∧
    (sfCall1 a e p v).body = none ∧
    (sfCall2 a e p v).method = "POST" ∧
    (sfCall2 a e p v).url = "https://pd.ap.a.pvp.net/store/v3/storefront/" ++ p ∧
    (sfCall2 a e p v).body = some (.obj []) ∧
    (sfCall3 a e p v).method = "GET" ∧
    (sfCall3 a e p v).url = "https://pd.ap.a.pvp.net/store/v1/storefront/" ++ p ∧
    (sfCall3 a e p v).body = none := by
  refine ⟨?_, ?_, ?_, rfl, rfl, rfl, rfl, rfl, rfl, rfl, rfl, rfl⟩
  · intro h1 j hj
    rw [get_storefront_as_storeLoop, storeLoop_cons_ok net _ _ _ j h1 hj]
    rfl
  · intro h1 h2 j hj
    rw [get_storefront_as_storeLoop, storeLoop_cons_fail net _ _ _ h1,
      storeLoop_cons_ok net _ _ _ j h2 hj]
    rfl
  · intro h1 h2 h3 j hj
    rw [get_storefront_as_storeLoop, storeLoop_cons_fail net _ _ _ h1,
      storeLoop_cons_fail net _ _ _ h2, storeLoop_cons_ok net _ _ _ j h3 hj]
    rfl

/-- Closed instance of `C3_ordered_fallback`: first two attempts 404, third
200 with body `\x7b"a":1\x7d`. -/
theorem C3_ordered_fallback_witness :
    get_storefront
      (fun c => if c.url = "https://pd.ap.a.pvp.net/store/v1/storefront/P1"
        then ⟨200, none, some (.obj [("a", .num 1)])⟩ else ⟨404, none, none⟩)
      "A" "E" "P1" "V"
      = (.ok (.obj [("a", .num 1)]),
         [sfCall1 "A" "E" "P1" "V", sfCall2 "A" "E" "P1" "V", sfCall3 "A" "E" "P1" "V"]) :=
  (C3_ordered_fallback
    (fun c => if c.url = "https://pd.ap.a.pvp.net/store/v1/storefront/P1"
      then ⟨200, none, some (.obj [("a", .num 1)])⟩ else ⟨404, none, none⟩)
    "A" "E" "P1" "V").2.2.1 (by decide) (by decide) (by decide)
    (.obj [("a", .num 1)]) (by rfl)

/-- C4: when all three attempts return non-200, the fetcher raises the single
generic storefront failure — no per-attempt distinction, and the trace shows
exactly the three attempts and no further retry. -/
theorem C4_exhaustion (net : Call → HttpResponse) (a e p v : String)
    (h1 : (net (sfCall1 a e p v)).status ≠ 200)
    (h2 : (net (sfCall2 a e p v)).status ≠ 200)
    (h3 : (net (sfCall3 a e p v)).status ≠ 200) :
    get_storefront net a e p v
      = (.error .storefrontFailed,
         [sfCall1 a e p v, sfCall2 a e p v, sfCall3 a e p v]) ∧
    RunError.storefrontFailed.message = "ストアフロント取得失敗" := by
  refine ⟨?_, rfl⟩
  rw [get_storefront_as_storeLoop, storeLoop_cons_fail net _ _ _ h1,
    storeLoop_cons_fail net _ _ _ h2, storeLoop_cons_fail net _ _ _ h3]
  rfl

/-- Closed instance of `C4_exhaustion`: every attempt returns 404. -/
theorem C4_exhaustion_witness :
    get_storefront (fun _ => ⟨404, none, none⟩) "A" "E" "P1" "V"
      = (.error .storefrontFailed,
         [sfCall1 "A" "E" "P1" "V", sfCall2 "A" "E" "P1" "V", sfCall3 "A" "E" "P1" "V"]) :=
  (C4_exhaustion (fun _ => ⟨404, none, none⟩) "A" "E" "P1" "V"
    (by decide) (by decide) (by decide)).1

/-- C7: with the session credential unset or empty, the run prints the
configuration-error line and the network trace is empty — no handshake,
resolver or storefront call is ever issued. -/
theorem C7_missing_credential_no_calls (env : Env)
    (h : ssidMissing env.ssid = true) :
    main env = (.errorLine configErrorLine, []) := by
  rw [main, if_pos h]

/-- Closed instance of `C7_missing_credential_no_calls` with `SSID` unset. -/
theorem C7_missing_credential_no_calls_witness :
    main ⟨none, none, default, default, default, .exc, fun _ => default⟩
      = (.errorLine configErrorLine, []) :=
  C7_missing_credential_no_calls
    ⟨none, none, default, default, default, .exc, fun _ => default⟩ rfl

/-- C8: every run prints exactly one of the two outputs — the storefront
document or a single error line — never both; a printed document is always
the full result of a completely successful pipeline; and `main` is a total
function, so the run terminates normally in both cases. -/
theorem C8_single_output (env : Env) :
    ((∃ j, (main env).1 = .document j) ∨ (∃ s, (main env).1 = .errorLine s)) ∧
    (∀ j s, (main env).1 = .document j → (main env).1 ≠ .errorLine s) ∧
    (∀ j, (main env).1 = .document j →
      ssidMissing env.ssid = false ∧
      ∃ a et sub,
        authenticate env.reauthResp = .ok a ∧
        get_entitlements_token env.entitlementsResp = .ok et ∧
        get_puuid env.userinfoResp = .ok sub ∧
        (get_storefront env.storeNet a et.asPy sub.asPy
          (get_client_version (clientVersionOverride env.clientVersionEnv)
            env.versionLookup).1).1 = .ok j) := by
  refine ⟨?_, ?_, ?_⟩
  · rcases h : (main env).1 with j | s
    · exact Or.inl ⟨j, rfl⟩
    · exact Or.inr ⟨s, rfl⟩
  · intro j s h1 h2
    rw [h1] at h2
    exact Output.noConfusion h2
  · intro j hdoc
    rw [main] at hdoc
    by_cases hs : ssidMissing env.ssid = true
    · rw [if_pos hs] at hdoc
      exact absurd hdoc (by simp)
    · rw [if_neg hs] at hdoc
      refine ⟨by simpa using hs, ?_⟩
      rcases hauth : authenticate env.reauthResp with e | a
      · rw [hauth] at hdoc; exact absurd hdoc (by simp)
      · rw [hauth] at hdoc
        rcases hent : get_entitlements_token env.entitlementsResp with e | et
        · rw [hent] at hdoc; exact absurd hdoc (by simp)
        · rw [hent] at hdoc
          rcases huser : get_puuid env.userinfoResp with e | sub
          · rw [huser] at hdoc; exact absurd hdoc (by simp)
          · rw [huser] at hdoc
            simp only at hdoc
            rcases hsf : (get_storefront env.storeNet a et.asPy sub.asPy
                (get_client_version (clientVersionOverride env.clientVersionEnv)
                  env.versionLookup).1).1 with e | j₀
            · rw [hsf] at hdoc; exact absurd hdoc (by simp)
            · rw [hsf] at hdoc
              simp at hdoc
              subst hdoc
              exact ⟨a, et, sub, rfl, rfl, rfl, hsf⟩


/-- Closed instance of the output dichotomy of `C8_single_output`. -/
theorem C8_single_output_witness :
    (∃ j, (main ⟨none, none, default, default, default, .exc, fun _ => default⟩).1
        = .document j) ∨
    (∃ s, (main ⟨none, none, default, default, default, .exc, fun _ => default⟩).1
        = .errorLine s) :=
  (C8_single_output ⟨none, none, default, default, default, .exc, fun _ => default⟩).1

/-- C10: a pipeline that reaches the storefront step and meets an attempt
returning 200 with a body the JSON decoder rejects aborts with the generic
top-level rendering of the decode error — a line distinct from the
storefront-exhaustion line — and the trace stops at that attempt: the
remaining endpoint variants are never attempted. -/
theorem C10_invalid_json_aborts (env : Env) (a et sub cv : String)
    (hs : ssidMissing env.ssid = false)
    (hauth : authenticate env.reauthResp = .ok a)
    (hent : get_entitlements_token env.entitlementsResp = .ok (.str et))
    (huser : get_puuid env.userinfoResp = .ok (.str sub))
    (hcv : cv = (get_client_version (clientVersionOverride env.clientVersionEnv)
      env.versionLookup).1) :
    ((env.storeNet (sfCall1 a et sub cv)).status = 200 →
      (env.storeNet (sfCall1 a et sub cv)).jsonBody = none →
      main env = (.errorLine (topLine .jsonDecode),
        authTraceCalls ++ [entCallOf a, userCallOf a]
          ++ versionCallsOf (clientVersionOverride env.clientVersionEnv) env.versionLookup
          ++ [sfCall1 a et sub cv])) ∧
    ((env.storeNet (sfCall1 a et sub cv)).status ≠ 200 →
      (env.storeNet (sfCall2 a et sub cv)).status = 200 →
      (env.storeNet (sfCall2 a et sub cv)).jsonBody = none →
      main env = (.errorLine (topLine .jsonDecode),
        authTraceCalls ++ [entCallOf a, userCallOf a]
          ++ versionCallsOf (clientVersionOverride env.clientVersionEnv) env.versionLookup
          ++ [sfCall1 a et sub cv, sfCall2 a et sub cv])) ∧
    ((env.storeNet (sfCall1 a et sub cv)).status ≠ 200 →
      (env.storeNet (sfCall2 a et sub cv)).status ≠ 200 →
      (env.storeNet (sfCall3 a et sub cv)).status = 200 →
      (env.storeNet (sfCall3 a et sub cv)).jsonBody = none →
      main env = (.errorLine (topLine .jsonDecode),
        authTraceCalls ++ [entCallOf a, userCallOf a]
          ++ versionCallsOf (clientVersionOverride env.clientVersionEnv) env.versionLookup
          ++ [sfCall1 a et sub cv, sfCall2 a et sub cv, sfCall3 a et sub cv])) ∧
    topLine RunError.jsonDecode ≠ topLine RunError.storefrontFailed := by
  subst hcv
  refine ⟨?_, ?_, ?_, by decide⟩
  · intro h200 hbad
    have hsf : get_storefront env.storeNet a (Json.str et).asPy (Json.str sub).asPy
        (get_client_version (clientVersionOverride env.clientVersionEnv)
          env.versionLookup).1
        = (.error .jsonDecode,
           [sfCall1 a et sub (get_client_version (clientVersionOverride env.clientVersionEnv)
             env.versionLookup).1]) := by
      rw [get_storefront_as_storeLoop]
      exact storeLoop_cons_badjson env.storeNet _ _ _ h200 hbad
    rw [main, if_neg (by simp [hs]), hauth, hent, huser]
    simp only [hsf]
  · intro h1 h200 hbad
    have hsf : get_storefront env.storeNet a (Json.str et).asPy (Json.str sub).asPy
        (get_client_version (clientVersionOverride env.clientVersionEnv)
          env.versionLookup).1
        = (.error .jsonDecode,
           [sfCall1 a et sub (get_client_version (clientVersionOverride env.clientVersionEnv)
             env.versionLookup).1,
            sfCall2 a et sub (get_client_version (clientVersionOverride env.clientVersionEnv)
             env.versionLookup).1]) := by
      rw [get_storefront_as_storeLoop]
      simp only [Json.asPy]
      rw [storeLoop_cons_fail env.storeNet _ _ _ h1,
        storeLoop_cons_badjson env.storeNet _ _ _ h200 hbad]
      rfl
    rw [main, if_neg (by simp [hs]), hauth, hent, huser]
    simp only [hsf]
  · intro h1 h2 h200 hbad
    have hsf : get_storefront env.storeNet a (Json.str et).asPy (Json.str sub).asPy
        (get_client_version (clientVersionOverride env.clientVersionEnv)
          env.versionLookup).1
        = (.error .jsonDecode,
           [sfCall1 a et sub (get_client_version (clientVersionOverride env.clientVersionEnv)
             env.versionLookup).1,
            sfCall2 a et sub (get_client_version (clientVersionOverride env.clientVersionEnv)
             env.versionLookup).1,
            sfCall3 a et sub (get_client_version (clientVersionOverride env.clientVersionEnv)
             env.versionLookup).1]) := by
      rw [get_storefront_as_storeLoop]
      simp only [Json.asPy]
      rw [storeLoop_cons_fail env.storeNet _ _ _ h1,
        storeLoop_cons_fail env.storeNet _ _ _ h2,
        storeLoop_cons_badjson env.storeNet _ _ _ h200 hbad]
      rfl
    rw [main, if_neg (by simp [hs]), hauth, hent, huser]
    simp only [hsf]

/-- Closed instance of `C10_invalid_json_aborts`: the first attempt answers
200 with an undecodable body. -/
theorem C10_invalid_json_aborts_witness :
    main ⟨some "S", some "V1", ⟨303, some "cb#access_token=T1&x=1", none⟩,
        ⟨200, none, some (.obj [("entitlements_token", .str "E1")])⟩,
        ⟨200, none, some (.obj [("sub", .str "P1")])⟩, .exc,
        fun _ => ⟨200, none, none⟩⟩
      = (.errorLine (topLine .jsonDecode),
         authTraceCalls ++ [entCallOf "T1", userCallOf "T1"]
           ++ versionCallsOf (clientVersionOverride (some "V1")) .exc
           ++ [sfCall1 "T1" "E1" "P1" "V1"]) :=
  (C10_invalid_json_aborts
    ⟨some "S", some "V1", ⟨303, some "cb#access_token=T1&x=1", none⟩,
      ⟨200, none, some (.obj [("entitlements_token", .str "E1")])⟩,
      ⟨200, none, some (.obj [("sub", .str "P1")])⟩, .exc,
      fun _ => ⟨200, none, none⟩⟩
    "T1" "E1" "P1" "V1" rfl rfl rfl rfl rfl).1 rfl rfl

end ShopGetter
